import Mathlib

/-!
Verification of the authentication and authorization core of the
TaskFlow task-management server (Express/TypeScript), shallowly embedded
in Lean 4.

Embedding conventions:
* Time is a single `Nat` timeline measured in seconds (the source mixes
  jsonwebtoken second-based `exp` claims with JS `Date` values; the
  calendar arithmetic `expiresAt.setDate(getDate() + 7)` is embedded as
  `now + 7*24*60*60`).
* JSON Web Tokens are embedded symbolically (Dolev-Yao style): a value of
  `TokenStr` is either a well-formed signed token carrying its payload
  (`userId`, the optional `type: "refresh"` tag), its expiry instant and
  the secret it was signed with, or an unparseable string.  `jwt.sign`
  constructs a `signed` value with the process secret; `jwt.verify`
  succeeds exactly when the secret matches and the token is unexpired,
  which mirrors signature validation plus the `exp` check, and the
  try/catch around it is embedded by totality (`Option` result).
* `bcrypt.compare` is an external collaborator and is passed in as an
  oracle `compare : String → String → Bool`; `bcrypt.hash` results and
  `randomUUID()` results are passed in as parameters.
* The in-memory store (`MemStorage`, JS `Map`s keyed by user id / raw
  token) is embedded as lists of records; `Map.set` is remove-then-append
  on the key, `Map.delete` returns whether the key was present.
* Express handlers are embedded as pure functions from the request data
  and the current store to a response value paired with the new store;
  `next()` (proceeding to the downstream handler) and the various
  `res.status(..).json(..)` short-circuits are the constructors of the
  result types.
-/

namespace TaskFlow

/-- Source `UserRole` from shared/schema: closed enum ADMIN | MEMBER. -/
inductive Role where
  | ADMIN : Role
  | MEMBER : Role
deriving DecidableEq, Repr

/-- Source `User` record from shared/schema (password is the bcrypt hash). -/
structure User where
  id : String
  email : String
  username : String
  password : String
  role : Role
  firstName : String
  lastName : String
  createdAt : Nat
deriving DecidableEq, Repr

/-- Source `UserPublic` from shared/schema: the password-free projection of a
user attached to a request after authentication. -/
structure UserPublic where
  id : String
  email : String
  username : String
  role : Role
  firstName : String
  lastName : String
  createdAt : Nat
deriving DecidableEq, Repr

/-- Source `const { password, ...publicUser } = user` — the projection used by
the middleware and the handlers. -/
def toPublicUser (u : User) : UserPublic :=
  { id := u.id
    email := u.email
    username := u.username
    role := u.role
    firstName := u.firstName
    lastName := u.lastName
    createdAt := u.createdAt }

/-! ### Token issuer (server/middleware/auth.ts) -/

/-- The process-wide signing secret (`SESSION_SECRET` fallback value). -/
def JWT_SECRET : String := "your-super-secret-jwt-key-change-in-production"

/-- Symbolic embedding of a JWT string: a `signed` value records the
payload (`userId` plus the optional `type` tag, `some "refresh"` for
refresh tokens), the `exp` claim and the signing secret; `malformed`
stands for any string that does not parse as a JWT signed with any key. -/
inductive TokenStr where
  | signed (userId : String) (kind : Option String) (exp : Nat) (secret : String) : TokenStr
  | malformed (s : String) : TokenStr
deriving DecidableEq, Repr

/-- Source `generateAccessToken`: `jwt.sign({userId}, JWT_SECRET, {expiresIn: "15m"})`. -/
def generateAccessToken (now : Nat) (userId : String) : TokenStr :=
  .signed userId none (now + 15 * 60) JWT_SECRET

/-- Source `generateRefreshToken`: `jwt.sign({userId, type: "refresh"}, JWT_SECRET, {expiresIn: "7d"})`. -/
def generateRefreshToken (now : Nat) (userId : String) : TokenStr :=
  .signed userId (some "refresh") (now + 7 * 24 * 60 * 60) JWT_SECRET

/-- Source `verifyToken`: `jwt.verify(token, JWT_SECRET)` inside try/catch,
returning the decoded `{userId}` on success and `null` on any failure
(malformed token, wrong signature, expired: jsonwebtoken rejects once
the clock reaches the `exp` instant). -/
def verifyToken (now : Nat) (t : TokenStr) : Option String :=
  match t with
  | .signed userId _ exp secret =>
      if secret = JWT_SECRET ∧ now < exp then some userId else none
  | .malformed _ => none

/-! ### Credential store (server/storage.ts, MemStorage) -/

/-- Source `RefreshToken` record from shared/schema. -/
structure RefreshTokenRec where
  id : String
  userId : String
  token : TokenStr
  expiresAt : Nat
  createdAt : Nat
deriving DecidableEq, Repr

/-- The mutable state of `MemStorage` that the auth core touches:
`users` is the `Map<string, User>` keyed by `User.id`, `refreshTokens`
the `Map<string, RefreshToken>` keyed by the raw token value. -/
structure Store where
  users : List User
  refreshTokens : List RefreshTokenRec
deriving DecidableEq, Repr

/-- Source `MemStorage.getUser`: `this.users.get(id)`. -/
def getUser (s : Store) (id : String) : Option User :=
  s.users.find? (fun u => u.id = id)

/-- JS `String.prototype.toLowerCase()` as used by the store lookups,
embedded as a character-wise lowercase map (structurally recursive so
that concrete lookups evaluate in the kernel). -/
def lowerStr (s : String) : String :=
  String.mk (s.data.map Char.toLower)

/-- Source `MemStorage.getUserByEmail`: case-insensitive find over the values. -/
def getUserByEmail (s : Store) (email : String) : Option User :=
  s.users.find? (fun u => lowerStr u.email = lowerStr email)

/-- Source `MemStorage.getUserByUsername`: case-insensitive find over the values. -/
def getUserByUsername (s : Store) (username : String) : Option User :=
  s.users.find? (fun u => lowerStr u.username = lowerStr username)

/-- Source `MemStorage.createUser`: builds the `User` from the input data plus a
fresh `randomUUID()` (passed in as `newId`) and `createdAt := now`, and
stores it under its id.  Returns the created user and the new store. -/
def createUser (s : Store) (newId : String) (now : Nat)
    (email username password : String) (role : Role)
    (firstName lastName : String) : User × Store :=
  let u : User :=
    { id := newId, email := email, username := username, password := password
      role := role, firstName := firstName, lastName := lastName, createdAt := now }
  (u, { s with users := (s.users.filter (fun v => v.id ≠ newId)) ++ [u] })

/-- Source `MemStorage.deleteUser`: `this.users.delete(id)` — returns whether a
user with that id was present, and removes it. -/
def deleteUser (s : Store) (id : String) : Bool × Store :=
  (s.users.any (fun u => u.id = id),
   { s with users := s.users.filter (fun u => u.id ≠ id) })

/-- Source `MemStorage.createRefreshToken`: builds the record with a fresh id
and `createdAt := now` and stores it under the raw token value
(`Map.set`, so an existing entry under the same key is replaced). -/
def createRefreshToken (s : Store) (newId : String) (now : Nat)
    (userId : String) (token : TokenStr) (expiresAt : Nat) :
    RefreshTokenRec × Store :=
  let r : RefreshTokenRec :=
    { id := newId, userId := userId, token := token
      expiresAt := expiresAt, createdAt := now }
  (r, { s with refreshTokens :=
          (s.refreshTokens.filter (fun t => t.token ≠ token)) ++ [r] })

/-- Source `MemStorage.getRefreshToken`: `this.refreshTokens.get(token)`. -/
def getRefreshToken (s : Store) (token : TokenStr) : Option RefreshTokenRec :=
  s.refreshTokens.find? (fun t => t.token = token)

/-- Source `MemStorage.deleteRefreshToken`: `this.refreshTokens.delete(token)`. -/
def deleteRefreshToken (s : Store) (token : TokenStr) : Bool × Store :=
  (s.refreshTokens.any (fun t => t.token = token),
   { s with refreshTokens := s.refreshTokens.filter (fun t => t.token ≠ token) })

/-- Source `MemStorage.deleteRefreshTokensByUser`: removes every token record
owned by `userId`; always returns `true`. -/
def deleteRefreshTokensByUser (s : Store) (userId : String) : Bool × Store :=
  (true, { s with refreshTokens := s.refreshTokens.filter (fun t => t.userId ≠ userId) })

/-! ### Auth middleware (server/middleware/auth.ts, `authenticate`) -/

/-- The `Authorization` header as the middleware classifies it:
`missing` — header absent; `nonBearer s` — header present but
`!authHeader.startsWith("Bearer ")`; `bearer t` — header of the form
`"Bearer " + t`, with `t` the substring after the prefix. -/
inductive AuthHeader where
  | missing : AuthHeader
  | nonBearer (s : String) : AuthHeader
  | bearer (t : TokenStr) : AuthHeader
deriving DecidableEq, Repr

/-- Outcome of a middleware: either a short-circuit response
(`res.status(status).json({message})` without calling `next()`), or
`next()` with the identity attached to the request. -/
inductive MwResult where
  | reject (status : Nat) (message : String) : MwResult
  | proceed (identity : UserPublic) : MwResult
deriving DecidableEq, Repr

/-- Source `authenticate`: extracts the bearer token, verifies it, loads the
user, attaches the password-free projection, rejecting with 401 at every
failure point (the surrounding try/catch also maps unexpected failures
to 401, embedded here by totality). -/
def authenticate (s : Store) (now : Nat) (h : AuthHeader) : MwResult :=
  match h with
  | .missing => .reject 401 "No token provided"
  | .nonBearer _ => .reject 401 "No token provided"
  | .bearer t =>
      match verifyToken now t with
      | none => .reject 401 "Invalid or expired token"
      | some userId =>
          match getUser s userId with
          | none => .reject 401 "User not found"
          | some u => .proceed (toPublicUser u)

/-! ### Role guard (server/middleware/auth.ts, `requireRole` / `requireAdmin`) -/

/-- Outcome of a guard: short-circuit response or `next()`. -/
inductive GuardResult where
  | reject (status : Nat) (message : String) : GuardResult
  | proceed : GuardResult
deriving DecidableEq, Repr

/-- Source `requireRole(...roles)`: 401 when no identity is attached
(`req.user` unset), 403 when the attached identity's role is not in the
list, `next()` otherwise. -/
def requireRole (roles : List Role) (user : Option UserPublic) : GuardResult :=
  match user with
  | none => .reject 401 "Not authenticated"
  | some u =>
      if roles.contains u.role then .proceed
      else .reject 403 "Insufficient permissions"

/-- Source `requireAdmin`: the ADMIN-only guard written out by hand in the
source, with its own 403 message. -/
def requireAdmin (user : Option UserPublic) : GuardResult :=
  match user with
  | none => .reject 401 "Not authenticated"
  | some u =>
      if u.role = Role.ADMIN then .proceed
      else .reject 403 "Admin access required"

/-! ### Auth flow handlers (server/routes.ts)

Each handler is embedded as the body that runs after the zod
`*.parse(req.body)` call has succeeded, so the string arguments are the
validated fields.  `bcrypt.compare` is the oracle `compare`;
`bcrypt.hash(data.password, 10)` results and `randomUUID()` values are
arguments (`hashedPassword`, `newUserId`, `newTokenRowId`).  A thrown
`AppError(status, msg)` is the `error` constructor (the error-handler
middleware turns it into `res.status(status).json({message: msg})`). -/

/-- The `res.cookie("refreshToken", ...)` options object. -/
structure Cookie where
  name : String
  value : TokenStr
  httpOnly : Bool
  secure : Bool
  sameSite : String
  maxAgeMs : Nat
deriving DecidableEq, Repr

/-- Builds the refresh-token cookie exactly as register and login do:
`{httpOnly: true, secure: NODE_ENV === "production", sameSite: "lax",
maxAge: 7*24*60*60*1000}`. -/
def refreshCookie (isProduction : Bool) (value : TokenStr) : Cookie :=
  { name := "refreshToken", value := value, httpOnly := true
    secure := isProduction, sameSite := "lax"
    maxAgeMs := 7 * 24 * 60 * 60 * 1000 }

/-- Response of POST /api/auth/register. -/
inductive RegisterResult where
  | error (status : Nat) (message : String) : RegisterResult
  | created (user : UserPublic) (accessToken : TokenStr) (cookie : Cookie) : RegisterResult
deriving DecidableEq, Repr

/-- POST /api/auth/register handler body (after `registerSchema.parse`):
duplicate email → 400; duplicate username → 400; otherwise create the
user with role MEMBER, issue both tokens, persist the refresh token with
expiry 7 days out, set the cookie and answer 201 with the password-free
user plus the access token. -/
def registerHandler (s : Store) (isProduction : Bool) (now : Nat)
    (newUserId newTokenRowId hashedPassword : String)
    (email username firstName lastName : String) : RegisterResult × Store :=
  match getUserByEmail s email with
  | some _ => (.error 400 "Email already registered", s)
  | none =>
    match getUserByUsername s username with
    | some _ => (.error 400 "Username already taken", s)
    | none =>
      let (user, s1) := createUser s newUserId now email username hashedPassword
        Role.MEMBER firstName lastName
      let accessToken := generateAccessToken now user.id
      let refreshToken := generateRefreshToken now user.id
      let expiresAt := now + 7 * 24 * 60 * 60
      let (_, s2) := createRefreshToken s1 newTokenRowId now user.id refreshToken expiresAt
      ((.created (toPublicUser user) accessToken (refreshCookie isProduction refreshToken)), s2)

/-- Response of POST /api/auth/login. -/
inductive LoginResult where
  | error (status : Nat) (message : String) : LoginResult
  | ok (user : UserPublic) (accessToken : TokenStr) (cookie : Cookie) : LoginResult
deriving DecidableEq, Repr

/-- POST /api/auth/login handler body (after `loginSchema.parse`):
unknown email → 401 "Invalid email or password"; failed
`bcrypt.compare` → the same 401; otherwise delete all of the user's
refresh tokens, issue a fresh pair, persist the refresh token and answer
200 with the password-free user plus the access token. -/
def loginHandler (compare : String → String → Bool) (s : Store)
    (isProduction : Bool) (now : Nat) (newTokenRowId : String)
    (email password : String) : LoginResult × Store :=
  match getUserByEmail s email with
  | none => (.error 401 "Invalid email or password", s)
  | some user =>
    if compare password user.password then
      let s1 := (deleteRefreshTokensByUser s user.id).2
      let accessToken := generateAccessToken now user.id
      let refreshToken := generateRefreshToken now user.id
      let expiresAt := now + 7 * 24 * 60 * 60
      let (_, s2) := createRefreshToken s1 newTokenRowId now user.id refreshToken expiresAt
      ((.ok (toPublicUser user) accessToken (refreshCookie isProduction refreshToken)), s2)
    else
      (.error 401 "Invalid email or password", s)

/-- Response of POST /api/auth/refresh. -/
inductive RefreshResult where
  | error (status : Nat) (message : String) : RefreshResult
  | ok (accessToken : TokenStr) : RefreshResult
deriving DecidableEq, Repr

/-- POST /api/auth/refresh handler: reads the `refreshToken` cookie
(`Option TokenStr` — `none` when absent), looks up the stored record,
checks store expiry (deleting the row when past), verifies the token
itself (deleting the row on failure), loads the user, and on success
answers with a new access token only — the stored refresh token row is
left untouched. -/
def refreshHandler (s : Store) (now : Nat) (cookie : Option TokenStr) :
    RefreshResult × Store :=
  match cookie with
  | none => (.error 401 "No refresh token provided", s)
  | some refreshToken =>
    match getRefreshToken s refreshToken with
    | none => (.error 401 "Invalid refresh token", s)
    | some storedToken =>
      if storedToken.expiresAt < now then
        let s1 := (deleteRefreshToken s refreshToken).2
        (.error 401 "Refresh token expired", s1)
      else
        match verifyToken now refreshToken with
        | none =>
            let s1 := (deleteRefreshToken s refreshToken).2
            (.error 401 "Invalid refresh token", s1)
        | some userId =>
          match getUser s userId with
          | none => (.error 401 "User not found", s)
          | some user => (.ok (generateAccessToken now user.id), s)

/-- Response of DELETE /api/users/:id. -/
inductive DeleteUserResult where
  | error (status : Nat) (message : String) : DeleteUserResult
  | ok (message : String) : DeleteUserResult
deriving DecidableEq, Repr

/-- DELETE /api/users/:id handler (runs after `authenticate` and
`requireAdmin`): refuses self-deletion (400), 404 when the user does not
exist, otherwise deletes the user and then all refresh tokens owned by
that user id. -/
def deleteUserHandler (s : Store) (requesterId targetId : String) :
    DeleteUserResult × Store :=
  if requesterId = targetId then
    (.error 400 "Cannot delete your own account", s)
  else
    let (deleted, s1) := deleteUser s targetId
    if deleted then
      let s2 := (deleteRefreshTokensByUser s1 targetId).2
      (.ok "User deleted successfully", s2)
    else
      (.error 404 "User not found", s1)

/-! ### Rate limiter (server/routes.ts, `authLimiter`)

Modelled from the spec: the `express-rate-limit` implementation is a
dependency whose source is not in the repository; only its configuration
is (`windowMs: 15*60*1000`, `max: 20`, fixed rejection message).  The
spec describes it as "max 20 requests per 15-minute window per client",
which is embedded as the library's documented fixed-window counter per
client: the first request opens a window; requests inside the window are
accepted while the counter is below `max`, rejected with the fixed
message once it reaches `max`; a request at or past the window's end
opens a fresh window. -/

/-- Source `authLimiter` configuration: the window length in milliseconds. -/
def authLimiterWindowMs : Nat := 15 * 60 * 1000

/-- Source `authLimiter` configuration: the maximum accepted requests per window. -/
def authLimiterMax : Nat := 20

/-- Source `authLimiter` configuration: the fixed rejection message. -/
def authLimiterMessage : String := "Too many requests, please try again later"

/-- Per-client limiter state: the opening instant of the current window
(ms) and the number of requests counted in it; `none` before the first
request. -/
structure LimiterState where
  windowStart : Nat
  count : Nat
deriving DecidableEq, Repr

/-- Outcome of one request through the limiter: `accepted` lets the
request through to the handler, `rejected` answers with the fixed
message instead. -/
inductive LimiterOutcome where
  | accepted : LimiterOutcome
  | rejected (message : String) : LimiterOutcome
deriving DecidableEq, Repr

/-- Modelled from the spec: one request at time `t` (ms) through the
fixed-window limiter. -/
def limiterStep (st : Option LimiterState) (t : Nat) :
    LimiterOutcome × Option LimiterState :=
  match st with
  | none => (.accepted, some { windowStart := t, count := 1 })
  | some w =>
    if w.windowStart + authLimiterWindowMs ≤ t then
      (.accepted, some { windowStart := t, count := 1 })
    else if w.count < authLimiterMax then
      (.accepted, some { w with count := w.count + 1 })
    else
      (.rejected authLimiterMessage, some w)

/-- Runs a sequence of request times through the limiter, collecting the
outcomes. -/
def limiterRun (st : Option LimiterState) : List Nat → List LimiterOutcome
  | [] => []
  | t :: ts =>
    let (o, st1) := limiterStep st t
    o :: limiterRun st1 ts

/-- The routes mounted with `authLimiter` in server/routes.ts: register,
login and refresh carry the limiter middleware; logout is mounted with
`authenticate` only and is not rate-limited. -/
def authLimitedRoutes : List String :=
  ["/api/auth/register", "/api/auth/login", "/api/auth/refresh"]

/-! ### Shared helper definitions for the theorems -/

/-- The refresh token rows owned by a given user id. -/
def tokensOfUser (s : Store) (userId : String) : List RefreshTokenRec :=
  s.refreshTokens.filter (fun t => t.userId = userId)

/-- The HTTP status of a guard outcome (`none` when the guard proceeds). -/
def guardStatus : GuardResult → Option Nat
  | .reject st _ => some st
  | .proceed => none

/-- Sample data used by the concrete witnesses below. -/
def adminUser : User :=
  { id := "u0", email := "admin@taskflow.com", username := "admin"
    password := "hash0", role := Role.ADMIN
    firstName := "System", lastName := "Admin", createdAt := 0 }

/-- Sample data used by the concrete witnesses below. -/
def aliceUser : User :=
  { id := "u1", email := "Alice@X.com", username := "alice"
    password := "hash1", role := Role.MEMBER
    firstName := "A", lastName := "L", createdAt := 1 }

/-- Sample store holding the admin and one member, no refresh tokens. -/
def sampleStore : Store :=
  { users := [adminUser, aliceUser], refreshTokens := [] }

/-- A live refresh token issued to alice at time 0. -/
def aliceToken : TokenStr := generateRefreshToken 0 "u1"

/-- Sample store with three refresh token rows: alice's live token, a
stored-but-unparseable token, and a token whose owner no longer has a
user record. -/
def tokenStore : Store :=
  { users := [adminUser, aliceUser]
    refreshTokens :=
      [{ id := "rt1", userId := "u1", token := aliceToken
         expiresAt := 604800, createdAt := 0 },
       { id := "rt2", userId := "u1", token := TokenStr.malformed "bad"
         expiresAt := 604800, createdAt := 0 },
       { id := "rt3", userId := "ghost", token := generateRefreshToken 0 "ghost"
         expiresAt := 604800, createdAt := 0 }] }

/-! ### Claim theorems -/

/-- C3. `verify(issueAccess(u))` returns `{userId: u}` at any time
strictly before the 15-minute expiry instant and `null` from the expiry
instant on; and for every token whatsoever, `verify` returns `null`
(totally, never throwing) when the token is malformed, signed with a
wrong secret, or expired. -/
theorem C3_verifyToken_contract :
    (∀ u now t, t < now + 15 * 60 →
      verifyToken t (generateAccessToken now u) = some u) ∧
    (∀ u now t, now + 15 * 60 ≤ t →
      verifyToken t (generateAccessToken now u) = none) ∧
    (∀ t s, verifyToken t (TokenStr.malformed s) = none) ∧
    (∀ t userId kind e sec, sec ≠ JWT_SECRET →
      verifyToken t (TokenStr.signed userId kind e sec) = none) ∧
    (∀ t userId kind e sec, e ≤ t →
      verifyToken t (TokenStr.signed userId kind e sec) = none) := by
  refine ⟨?_, ?_, ?_, ?_, ?_⟩
  · intro u now t h
    simp [generateAccessToken, verifyToken, h]
  · intro u now t h
    simp [generateAccessToken, verifyToken]
    omega
  · intro t s
    simp [verifyToken]
  · intro t userId kind e sec h
    simp [verifyToken]
    intro hs
    exact absurd hs h
  · intro t userId kind e sec h
    simp [verifyToken]
    intro _
    omega

/-- Witness for C3 at concrete inputs. -/
theorem C3_verifyToken_contract_witness :
    verifyToken 10 (generateAccessToken 0 "u1") = some "u1" ∧
    verifyToken 900 (generateAccessToken 0 "u1") = none ∧
    verifyToken 0 (TokenStr.malformed "garbage") = none ∧
    verifyToken 0 (TokenStr.signed "u1" none 100 "wrong-secret") = none ∧
    verifyToken 50 (TokenStr.signed "u1" none 50 JWT_SECRET) = none :=
  ⟨C3_verifyToken_contract.1 "u1" 0 10 (by decide),
   C3_verifyToken_contract.2.1 "u1" 0 900 (by decide),
   C3_verifyToken_contract.2.2.1 0 "garbage",
   C3_verifyToken_contract.2.2.2.1 0 "u1" none 100 "wrong-secret" (by decide),
   C3_verifyToken_contract.2.2.2.2 50 "u1" none 50 JWT_SECRET (by decide)⟩

/-- C10. An unexpired refresh token verifies to `{userId: u}` just
like an access token (the issuer checks only signature and expiry, not
the `type` tag), so presenting it as a bearer access token drives the
auth middleware to exactly the same outcome as the corresponding access
token. -/
theorem C10_no_token_kind_separation :
    (∀ u now t, t < now + 7 * 24 * 60 * 60 →
      verifyToken t (generateRefreshToken now u) = some u) ∧
    (∀ s u now t, t < now + 15 * 60 →
      authenticate s t (AuthHeader.bearer (generateRefreshToken now u)) =
        authenticate s t (AuthHeader.bearer (generateAccessToken now u))) := by
  constructor
  · intro u now t h
    simp [generateRefreshToken, verifyToken, h]
  · intro s u now t h
    have h1 : verifyToken t (generateRefreshToken now u) = some u := by
      simp [generateRefreshToken, verifyToken]
      omega
    have h2 : verifyToken t (generateAccessToken now u) = some u := by
      simp [generateAccessToken, verifyToken, h]
    simp [authenticate, h1, h2]

/-- Witness for C10 at concrete inputs. -/
theorem C10_no_token_kind_separation_witness :
    verifyToken 604799 (generateRefreshToken 0 "u1") = some "u1" ∧
    authenticate { users := [], refreshTokens := [] } 10
        (AuthHeader.bearer (generateRefreshToken 0 "u1")) =
      authenticate { users := [], refreshTokens := [] } 10
        (AuthHeader.bearer (generateAccessToken 0 "u1")) :=
  ⟨C10_no_token_kind_separation.1 "u1" 0 604799 (by decide),
   C10_no_token_kind_separation.2 { users := [], refreshTokens := [] } "u1" 0 10 (by decide)⟩

/-- C1. The auth middleware rejects with 401 — and never any other
status, in particular never 500 — without invoking the downstream
handler when the Authorization header is absent, when it lacks the
`"Bearer "` prefix, when the bearer token fails verification, or when
the verified token's userId has no user record; otherwise it proceeds
with the password-free identity projected from the user record. -/
theorem C1_authenticate_contract :
    ∀ (s : Store) (now : Nat),
    (authenticate s now AuthHeader.missing = MwResult.reject 401 "No token provided") ∧
    (∀ x, authenticate s now (AuthHeader.nonBearer x) =
      MwResult.reject 401 "No token provided") ∧
    (∀ t, verifyToken now t = none →
      authenticate s now (AuthHeader.bearer t) =
        MwResult.reject 401 "Invalid or expired token") ∧
    (∀ t userId, verifyToken now t = some userId → getUser s userId = none →
      authenticate s now (AuthHeader.bearer t) = MwResult.reject 401 "User not found") ∧
    (∀ t userId u, verifyToken now t = some userId → getUser s userId = some u →
      authenticate s now (AuthHeader.bearer t) = MwResult.proceed (toPublicUser u) ∧
      toPublicUser u =
        { id := u.id, email := u.email, username := u.username, role := u.role
          firstName := u.firstName, lastName := u.lastName, createdAt := u.createdAt }) ∧
    (∀ h st m, authenticate s now h = MwResult.reject st m → st = 401) := by
  intro s now
  refine ⟨rfl, fun x => rfl, ?_, ?_, ?_, ?_⟩
  · intro t ht
    simp [authenticate, ht]
  · intro t userId ht hu
    simp [authenticate, ht, hu]
  · intro t userId u ht hu
    exact ⟨by simp [authenticate, ht, hu], rfl⟩
  · intro h st m
    cases h with
    | missing =>
        intro he
        simp only [authenticate, MwResult.reject.injEq] at he
        exact he.1.symm
    | nonBearer x =>
        intro he
        simp only [authenticate, MwResult.reject.injEq] at he
        exact he.1.symm
    | bearer t =>
        intro he
        cases hv : verifyToken now t with
        | none =>
            simp only [authenticate, hv, MwResult.reject.injEq] at he
            exact he.1.symm
        | some userId =>
            cases hu : getUser s userId with
            | none =>
                simp only [authenticate, hv, hu, MwResult.reject.injEq] at he
                exact he.1.symm
            | some u =>
                simp only [authenticate, hv, hu] at he
                simp at he

/-- Witness for C1 at concrete inputs: garbage bearer token, valid token
for a deleted user, valid token for an existing user, and the
401-only-statuses conjunct at the missing-header case. -/
theorem C1_authenticate_contract_witness :
    authenticate sampleStore 0 (AuthHeader.bearer (TokenStr.malformed "garbage")) =
      MwResult.reject 401 "Invalid or expired token" ∧
    authenticate sampleStore 0 (AuthHeader.bearer (generateAccessToken 0 "ghost")) =
      MwResult.reject 401 "User not found" ∧
    authenticate sampleStore 0 (AuthHeader.bearer (generateAccessToken 0 "u1")) =
      MwResult.proceed (toPublicUser aliceUser) ∧
    (401 : Nat) = 401 :=
  ⟨(C1_authenticate_contract sampleStore 0).2.2.1 (TokenStr.malformed "garbage") (by decide),
   (C1_authenticate_contract sampleStore 0).2.2.2.1 (generateAccessToken 0 "ghost") "ghost"
     (by decide) (by decide),
   ((C1_authenticate_contract sampleStore 0).2.2.2.2.1 (generateAccessToken 0 "u1") "u1"
     aliceUser (by decide) (by decide)).1,
   (C1_authenticate_contract sampleStore 0).2.2.2.2.2 AuthHeader.missing 401
     "No token provided" rfl⟩

/-- C6 counterexample. The ADMIN-only specialization does NOT behave
identically to `requireRole` with allowed = {ADMIN}: at a MEMBER
identity, `requireAdmin` answers 403 "Admin access required" while
`requireRole [ADMIN]` answers 403 "Insufficient permissions". -/
theorem C6_counterexample :
    requireAdmin (some (toPublicUser aliceUser)) ≠
      requireRole [Role.ADMIN] (some (toPublicUser aliceUser)) := by
  decide

/-- C6 (amended). `requireRole(allowed)` answers 401 "Not
authenticated" with no identity attached, 403 "Insufficient permissions"
when the attached role is not in the allowed list, and proceeds
otherwise.  `requireAdmin` agrees with `requireRole [ADMIN]` on status
and on the proceed/reject decision for every input — so an ADMIN-only
route yields 403 for a MEMBER identity and proceeds for an ADMIN
identity — but its 403 carries the message "Admin access required"
rather than "Insufficient permissions". -/
theorem C6_role_guard :
    (∀ roles, requireRole roles none = GuardResult.reject 401 "Not authenticated") ∧
    (∀ roles u, u.role ∉ roles →
      requireRole roles (some u) = GuardResult.reject 403 "Insufficient permissions") ∧
    (∀ roles u, u.role ∈ roles → requireRole roles (some u) = GuardResult.proceed) ∧
    (requireAdmin none = GuardResult.reject 401 "Not authenticated") ∧
    (∀ u, u.role = Role.MEMBER →
      requireAdmin (some u) = GuardResult.reject 403 "Admin access required") ∧
    (∀ u, u.role = Role.ADMIN → requireAdmin (some u) = GuardResult.proceed) ∧
    (∀ ou, guardStatus (requireAdmin ou) = guardStatus (requireRole [Role.ADMIN] ou)) ∧
    (∀ ou, requireAdmin ou = GuardResult.proceed ↔
      requireRole [Role.ADMIN] ou = GuardResult.proceed) := by
  refine ⟨fun roles => rfl, ?_, ?_, rfl, ?_, ?_, ?_, ?_⟩
  · intro roles u h
    simp [requireRole, h]
  · intro roles u h
    simp [requireRole, h]
  · intro u h
    simp [requireAdmin, h]
  · intro u h
    simp [requireAdmin, h]
  · intro ou
    cases ou with
    | none => rfl
    | some u => cases hr : u.role <;> simp [requireAdmin, requireRole, guardStatus, hr]
  · intro ou
    cases ou with
    | none => simp [requireAdmin, requireRole]
    | some u => cases hr : u.role <;> simp [requireAdmin, requireRole, hr]

/-- Witness for C6 at concrete identities. -/
theorem C6_role_guard_witness :
    requireRole [Role.ADMIN] (some (toPublicUser aliceUser)) =
      GuardResult.reject 403 "Insufficient permissions" ∧
    requireRole [Role.ADMIN, Role.MEMBER] (some (toPublicUser aliceUser)) =
      GuardResult.proceed ∧
    requireAdmin (some (toPublicUser aliceUser)) =
      GuardResult.reject 403 "Admin access required" ∧
    requireAdmin (some (toPublicUser adminUser)) = GuardResult.proceed :=
  ⟨C6_role_guard.2.1 [Role.ADMIN] (toPublicUser aliceUser) (by decide),
   C6_role_guard.2.2.1 [Role.ADMIN, Role.MEMBER] (toPublicUser aliceUser) (by decide),
   C6_role_guard.2.2.2.2.1 (toPublicUser aliceUser) (by decide),
   C6_role_guard.2.2.2.2.2.1 (toPublicUser adminUser) (by decide)⟩

/-- C5. The login failure for an unknown email and the login failure
for a known email with a wrong password are indistinguishable: both are
the full response `(401, "Invalid email or password")` with the store
untouched, and the two handler outcomes are equal as values. -/
theorem C5_login_failure_indistinguishable :
    ∀ (compare : String → String → Bool) (s : Store) (isProduction : Bool)
      (now : Nat) (newTokenRowId e1 p1 e2 p2 : String) (u : User),
    getUserByEmail s e1 = none →
    getUserByEmail s e2 = some u →
    compare p2 u.password = false →
    loginHandler compare s isProduction now newTokenRowId e1 p1 =
      (LoginResult.error 401 "Invalid email or password", s) ∧
    loginHandler compare s isProduction now newTokenRowId e2 p2 =
      (LoginResult.error 401 "Invalid email or password", s) ∧
    loginHandler compare s isProduction now newTokenRowId e1 p1 =
      loginHandler compare s isProduction now newTokenRowId e2 p2 := by
  intro compare s isProduction now newTokenRowId e1 p1 e2 p2 u h1 h2 h3
  have a1 : loginHandler compare s isProduction now newTokenRowId e1 p1 =
      (LoginResult.error 401 "Invalid email or password", s) := by
    simp [loginHandler, h1]
  have a2 : loginHandler compare s isProduction now newTokenRowId e2 p2 =
      (LoginResult.error 401 "Invalid email or password", s) := by
    simp [loginHandler, h2, h3]
  exact ⟨a1, a2, a1.trans a2.symm⟩

/-- Witness for C5: unknown email vs `aliceUser`'s email (in a different
case, also exercising the case-insensitive lookup) with an
always-rejecting compare oracle. -/
theorem C5_login_failure_indistinguishable_witness :
    loginHandler (fun _ _ => false) sampleStore false 0 "rid" "nobody@x.com" "pw" =
      (LoginResult.error 401 "Invalid email or password", sampleStore) ∧
    loginHandler (fun _ _ => false) sampleStore false 0 "rid" "alice@x.com" "pw" =
      (LoginResult.error 401 "Invalid email or password", sampleStore) ∧
    loginHandler (fun _ _ => false) sampleStore false 0 "rid" "nobody@x.com" "pw" =
      loginHandler (fun _ _ => false) sampleStore false 0 "rid" "alice@x.com" "pw" :=
  C5_login_failure_indistinguishable (fun _ _ => false) sampleStore false 0 "rid"
    "nobody@x.com" "pw" "alice@x.com" "pw" aliceUser (by decide) (by decide) rfl

/-- Deleting every row of a user and then inserting one fresh row owned
by that user leaves exactly that row among the user's rows, whatever
other key-based filtering (`Map.set` replacement) happened in between. -/
theorem filter_owner_after_purge_insert (l : List RefreshTokenRec) (uid : String)
    (q : RefreshTokenRec → Bool) (r : RefreshTokenRec) (hr : r.userId = uid) :
    List.filter (fun t => t.userId = uid)
      ((List.filter q (List.filter (fun t => t.userId ≠ uid) l)) ++ [r]) = [r] := by
  rw [List.filter_append]
  have h0 : List.filter (fun t => t.userId = uid)
      (List.filter q (List.filter (fun t => t.userId ≠ uid) l)) = [] := by
    rw [List.filter_eq_nil_iff]
    intro a ha
    have ha2 : a ∈ List.filter (fun t => t.userId ≠ uid) l :=
      List.mem_of_mem_filter ha
    have ha3 := List.of_mem_filter ha2
    simp at ha3 ⊢
    exact ha3
  rw [h0]
  simp [hr]

/-- C2. After each successful login exactly one refresh token row
owned by the logged-in user exists: the handler deletes all of the
user's prior rows before inserting the new one.  In particular two
sequential successful logins by the same user leave exactly one row. -/
theorem C2_login_single_refresh_token :
    (∀ (compare : String → String → Bool) (s : Store) (isProduction : Bool)
       (now : Nat) (newTokenRowId email password : String)
       (u : UserPublic) (atok : TokenStr) (ck : Cookie) (s2 : Store),
      loginHandler compare s isProduction now newTokenRowId email password =
        (LoginResult.ok u atok ck, s2) →
      (tokensOfUser s2 u.id).length = 1) ∧
    (∀ (compare : String → String → Bool) (s : Store) (isProduction : Bool)
       (now1 now2 : Nat) (tid1 tid2 email p1 p2 : String)
       (u1 : UserPublic) (a1 : TokenStr) (c1 : Cookie) (s1 : Store)
       (u2 : UserPublic) (a2 : TokenStr) (c2 : Cookie) (s2 : Store),
      loginHandler compare s isProduction now1 tid1 email p1 =
        (LoginResult.ok u1 a1 c1, s1) →
      loginHandler compare s1 isProduction now2 tid2 email p2 =
        (LoginResult.ok u2 a2 c2, s2) →
      (tokensOfUser s2 u2.id).length = 1) := by
  have key : ∀ (compare : String → String → Bool) (s : Store) (isProduction : Bool)
      (now : Nat) (newTokenRowId email password : String)
      (u : UserPublic) (atok : TokenStr) (ck : Cookie) (s2 : Store),
      loginHandler compare s isProduction now newTokenRowId email password =
        (LoginResult.ok u atok ck, s2) →
      (tokensOfUser s2 u.id).length = 1 := by
    intro compare s isProduction now newTokenRowId email password u atok ck s2 h
    cases hu : getUserByEmail s email with
    | none => simp [loginHandler, hu] at h
    | some user =>
      cases hc : compare password user.password with
      | false => simp [loginHandler, hu, hc] at h
      | true =>
        simp only [loginHandler, hu, hc, deleteRefreshTokensByUser,
          createRefreshToken, if_true, Prod.mk.injEq, LoginResult.ok.injEq] at h
        obtain ⟨⟨hu2, -, -⟩, hs2⟩ := h
        subst hs2
        rw [← hu2]
        unfold tokensOfUser
        simp only [toPublicUser]
        rw [filter_owner_after_purge_insert _ user.id _ _ rfl]
        rfl
  exact ⟨key, fun compare s isProduction now1 now2 tid1 tid2 email p1 p2
    u1 a1 c1 s1 u2 a2 c2 s2 _ h2 =>
    key compare s1 isProduction now2 tid2 email p2 u2 a2 c2 s2 h2⟩

/-- Witness for C2: a successful login on the sample store with an
always-accepting compare oracle leaves exactly one refresh token row
for alice. -/
theorem C2_login_single_refresh_token_witness :
    (tokensOfUser (loginHandler (fun _ _ => true) sampleStore false 0 "rid"
      "alice@x.com" "pw").2 (toPublicUser aliceUser).id).length = 1 :=
  C2_login_single_refresh_token.1 (fun _ _ => true) sampleStore false 0 "rid"
    "alice@x.com" "pw" (toPublicUser aliceUser) (generateAccessToken 0 "u1")
    (refreshCookie false (generateRefreshToken 0 "u1"))
    (loginHandler (fun _ _ => true) sampleStore false 0 "rid" "alice@x.com" "pw").2
    (by decide)

/-- Deleting a refresh token by raw value makes it unfindable. -/
theorem getRefreshToken_delete (s : Store) (rt : TokenStr) :
    getRefreshToken (deleteRefreshToken s rt).2 rt = none := by
  unfold getRefreshToken deleteRefreshToken
  rw [List.find?_eq_none]
  intro a ha
  have h1 := List.of_mem_filter ha
  simp at h1 ⊢
  exact h1

/-- C4. The refresh handler answers 401 when the cookie is absent,
when no stored record matches, when the stored record's expiry has
passed (deleting the row first), or when issuer verification fails
(deleting the row first), or when the token's user no longer exists; on
success it answers only a freshly issued access token and leaves the
store — in particular the stored refresh token row — unchanged. -/
theorem C4_refresh_contract :
    ∀ (s : Store) (now : Nat),
    (refreshHandler s now none =
      (RefreshResult.error 401 "No refresh token provided", s)) ∧
    (∀ rt, getRefreshToken s rt = none →
      refreshHandler s now (some rt) =
        (RefreshResult.error 401 "Invalid refresh token", s)) ∧
    (∀ rt st, getRefreshToken s rt = some st → st.expiresAt < now →
      refreshHandler s now (some rt) =
        (RefreshResult.error 401 "Refresh token expired", (deleteRefreshToken s rt).2) ∧
      getRefreshToken (refreshHandler s now (some rt)).2 rt = none) ∧
    (∀ rt st, getRefreshToken s rt = some st → ¬ st.expiresAt < now →
      verifyToken now rt = none →
      refreshHandler s now (some rt) =
        (RefreshResult.error 401 "Invalid refresh token", (deleteRefreshToken s rt).2) ∧
      getRefreshToken (refreshHandler s now (some rt)).2 rt = none) ∧
    (∀ rt st userId, getRefreshToken s rt = some st → ¬ st.expiresAt < now →
      verifyToken now rt = some userId → getUser s userId = none →
      refreshHandler s now (some rt) =
        (RefreshResult.error 401 "User not found", s)) ∧
    (∀ rt st userId u, getRefreshToken s rt = some st → ¬ st.expiresAt < now →
      verifyToken now rt = some userId → getUser s userId = some u →
      refreshHandler s now (some rt) =
        (RefreshResult.ok (generateAccessToken now u.id), s)) := by
  intro s now
  refine ⟨rfl, ?_, ?_, ?_, ?_, ?_⟩
  · intro rt h
    simp [refreshHandler, h]
  · intro rt st hst hexp
    have hmain : refreshHandler s now (some rt) =
        (RefreshResult.error 401 "Refresh token expired", (deleteRefreshToken s rt).2) := by
      simp [refreshHandler, hst, hexp]
    exact ⟨hmain, by rw [hmain]; exact getRefreshToken_delete s rt⟩
  · intro rt st hst hexp hv
    have hmain : refreshHandler s now (some rt) =
        (RefreshResult.error 401 "Invalid refresh token", (deleteRefreshToken s rt).2) := by
      simp [refreshHandler, hst, hexp, hv]
    exact ⟨hmain, by rw [hmain]; exact getRefreshToken_delete s rt⟩
  · intro rt st userId hst hexp hv hu
    simp [refreshHandler, hst, hexp, hv, hu]
  · intro rt st userId u hst hexp hv hu
    simp [refreshHandler, hst, hexp, hv, hu]

/-- Witness for C4 on the sample token store: missing cookie, unknown
token, store-expired token, stored-but-unparseable token, orphaned
token, and the success path. -/
theorem C4_refresh_contract_witness :
    refreshHandler tokenStore 10 none =
      (RefreshResult.error 401 "No refresh token provided", tokenStore) ∧
    refreshHandler tokenStore 10 (some (TokenStr.malformed "zz")) =
      (RefreshResult.error 401 "Invalid refresh token", tokenStore) ∧
    refreshHandler tokenStore 700000 (some aliceToken) =
      (RefreshResult.error 401 "Refresh token expired",
        (deleteRefreshToken tokenStore aliceToken).2) ∧
    refreshHandler tokenStore 10 (some (TokenStr.malformed "bad")) =
      (RefreshResult.error 401 "Invalid refresh token",
        (deleteRefreshToken tokenStore (TokenStr.malformed "bad")).2) ∧
    refreshHandler tokenStore 10 (some (generateRefreshToken 0 "ghost")) =
      (RefreshResult.error 401 "User not found", tokenStore) ∧
    refreshHandler tokenStore 10 (some aliceToken) =
      (RefreshResult.ok (generateAccessToken 10 "u1"), tokenStore) :=
  ⟨(C4_refresh_contract tokenStore 10).1,
   (C4_refresh_contract tokenStore 10).2.1 (TokenStr.malformed "zz") (by decide),
   ((C4_refresh_contract tokenStore 700000).2.2.1 aliceToken
     { id := "rt1", userId := "u1", token := aliceToken, expiresAt := 604800, createdAt := 0 }
     (by decide) (by decide)).1,
   ((C4_refresh_contract tokenStore 10).2.2.2.1 (TokenStr.malformed "bad")
     { id := "rt2", userId := "u1", token := TokenStr.malformed "bad"
       expiresAt := 604800, createdAt := 0 }
     (by decide) (by decide) (by decide)).1,
   (C4_refresh_contract tokenStore 10).2.2.2.2.1 (generateRefreshToken 0 "ghost")
     { id := "rt3", userId := "ghost", token := generateRefreshToken 0 "ghost"
       expiresAt := 604800, createdAt := 0 }
     "ghost" (by decide) (by decide) (by decide) (by decide),
   (C4_refresh_contract tokenStore 10).2.2.2.2.2 aliceToken
     { id := "rt1", userId := "u1", token := aliceToken, expiresAt := 604800, createdAt := 0 }
     "u1" aliceUser (by decide) (by decide) (by decide) (by decide)⟩

/-- C7. Registration with an email or username equal (ignoring
case) to an existing user's fails with 400 and leaves the store
untouched; with fresh email and username it creates a MEMBER user and
answers 201 (`created`) with the password-free user and an access token,
persisting a refresh token row with 7-day expiry and setting it in an
HTTP-only, same-site-lax cookie. -/
theorem C7_register_contract :
    ∀ (s : Store) (isProduction : Bool) (now : Nat)
      (newUserId newTokenRowId hashedPassword email username firstName lastName : String),
    ((∃ u ∈ s.users, lowerStr u.email = lowerStr email) →
      registerHandler s isProduction now newUserId newTokenRowId hashedPassword
          email username firstName lastName =
        (RegisterResult.error 400 "Email already registered", s)) ∧
    ((∀ u ∈ s.users, lowerStr u.email ≠ lowerStr email) →
     (∃ u ∈ s.users, lowerStr u.username = lowerStr username) →
      registerHandler s isProduction now newUserId newTokenRowId hashedPassword
          email username firstName lastName =
        (RegisterResult.error 400 "Username already taken", s)) ∧
    ((∀ u ∈ s.users, lowerStr u.email ≠ lowerStr email ∧
        lowerStr u.username ≠ lowerStr username) →
      ∃ s2, registerHandler s isProduction now newUserId newTokenRowId hashedPassword
          email username firstName lastName =
        (RegisterResult.created
          { id := newUserId, email := email, username := username, role := Role.MEMBER
            firstName := firstName, lastName := lastName, createdAt := now }
          (generateAccessToken now newUserId)
          (refreshCookie isProduction (generateRefreshToken now newUserId)), s2) ∧
      ({ id := newUserId, email := email, username := username
         password := hashedPassword, role := Role.MEMBER
         firstName := firstName, lastName := lastName, createdAt := now } : User) ∈ s2.users ∧
      ({ id := newTokenRowId, userId := newUserId
         token := generateRefreshToken now newUserId
         expiresAt := now + 7 * 24 * 60 * 60, createdAt := now } : RefreshTokenRec)
        ∈ s2.refreshTokens ∧
      (refreshCookie isProduction (generateRefreshToken now newUserId)).httpOnly = true ∧
      (refreshCookie isProduction (generateRefreshToken now newUserId)).sameSite = "lax" ∧
      (refreshCookie isProduction (generateRefreshToken now newUserId)).name =
        "refreshToken") := by
  intro s isProduction now newUserId newTokenRowId hashedPassword email username
    firstName lastName
  refine ⟨?_, ?_, ?_⟩
  · intro hex
    have hsome : (s.users.find? (fun u => lowerStr u.email = lowerStr email)).isSome := by
      rw [List.find?_isSome]
      obtain ⟨u, hu, he⟩ := hex
      exact ⟨u, hu, by simpa using he⟩
    obtain ⟨v, hv⟩ := Option.isSome_iff_exists.mp hsome
    have hv2 : getUserByEmail s email = some v := hv
    simp [registerHandler, hv2]
  · intro hall hex
    have hmail : getUserByEmail s email = none := by
      unfold getUserByEmail
      rw [List.find?_eq_none]
      intro u hu
      simpa using hall u hu
    have hsome : (s.users.find? (fun u => lowerStr u.username = lowerStr username)).isSome := by
      rw [List.find?_isSome]
      obtain ⟨u, hu, he⟩ := hex
      exact ⟨u, hu, by simpa using he⟩
    obtain ⟨v, hv⟩ := Option.isSome_iff_exists.mp hsome
    have hv2 : getUserByUsername s username = some v := hv
    simp [registerHandler, hmail, hv2]
  · intro hall
    have hmail : getUserByEmail s email = none := by
      unfold getUserByEmail
      rw [List.find?_eq_none]
      intro u hu
      simpa using (hall u hu).1
    have husr : getUserByUsername s username = none := by
      unfold getUserByUsername
      rw [List.find?_eq_none]
      intro u hu
      simpa using (hall u hu).2
    refine ⟨(registerHandler s isProduction now newUserId newTokenRowId hashedPassword
        email username firstName lastName).2, ?_, ?_, ?_, rfl, rfl, rfl⟩
    · simp [registerHandler, hmail, husr, createUser, createRefreshToken, toPublicUser]
    · simp [registerHandler, hmail, husr, createUser, createRefreshToken]
    · simp [registerHandler, hmail, husr, createUser, createRefreshToken]

/-- Witness for C7 on the sample store: duplicate email in a different
case, duplicate username in a different case, and a fresh registration. -/
theorem C7_register_contract_witness :
    registerHandler sampleStore false 0 "u9" "rt9" "hash9"
        "ALICE@x.COM" "bob" "B" "B" =
      (RegisterResult.error 400 "Email already registered", sampleStore) ∧
    registerHandler sampleStore false 0 "u9" "rt9" "hash9"
        "bob@x.com" "ADMIN" "B" "B" =
      (RegisterResult.error 400 "Username already taken", sampleStore) ∧
    ∃ s2, registerHandler sampleStore false 0 "u9" "rt9" "hash9"
          "bob@x.com" "bob" "B" "B" =
        (RegisterResult.created
          { id := "u9", email := "bob@x.com", username := "bob", role := Role.MEMBER
            firstName := "B", lastName := "B", createdAt := 0 }
          (generateAccessToken 0 "u9")
          (refreshCookie false (generateRefreshToken 0 "u9")), s2) ∧
      ({ id := "u9", email := "bob@x.com", username := "bob"
         password := "hash9", role := Role.MEMBER
         firstName := "B", lastName := "B", createdAt := 0 } : User) ∈ s2.users ∧
      ({ id := "rt9", userId := "u9", token := generateRefreshToken 0 "u9"
         expiresAt := 7 * 24 * 60 * 60, createdAt := 0 } : RefreshTokenRec)
        ∈ s2.refreshTokens ∧
      (refreshCookie false (generateRefreshToken 0 "u9")).httpOnly = true ∧
      (refreshCookie false (generateRefreshToken 0 "u9")).sameSite = "lax" ∧
      (refreshCookie false (generateRefreshToken 0 "u9")).name = "refreshToken" :=
  ⟨(C7_register_contract sampleStore false 0 "u9" "rt9" "hash9"
      "ALICE@x.COM" "bob" "B" "B").1 (by decide),
   (C7_register_contract sampleStore false 0 "u9" "rt9" "hash9"
      "bob@x.com" "ADMIN" "B" "B").2.1 (by decide) (by decide),
   (C7_register_contract sampleStore false 0 "u9" "rt9" "hash9"
      "bob@x.com" "bob" "B" "B").2.2 (by decide)⟩

/-- C8 counterexample. After the admin deletes alice — who owns the
live token `aliceToken` — a refresh presenting that token's cookie does
answer 401, but with "Invalid refresh token" (the cascade already
removed the row), not "User not found": the user-not-found branch is
never reached because the row lookup fails first. -/
theorem C8_counterexample :
    (refreshHandler (deleteUserHandler tokenStore "u0" "u1").2 10 (some aliceToken)).1 =
      RefreshResult.error 401 "Invalid refresh token" ∧
    (refreshHandler (deleteUserHandler tokenStore "u0" "u1").2 10 (some aliceToken)).1 ≠
      RefreshResult.error 401 "User not found" := by
  exact ⟨by decide, by decide⟩

/-- C8 (amended). After an admin successfully deletes a user who
owns a live refresh token, no refresh token row owned by that user
remains, and a subsequent `/auth/refresh` presenting that token's
cookie returns 401 — with message "Invalid refresh token", because the
cascade already deleted the row, so the user-not-found branch is never
reached. -/
theorem C8_delete_user_cascade :
    ∀ (s : Store) (requesterId targetId m : String) (s2 : Store)
      (rt : TokenStr) (now : Nat),
    deleteUserHandler s requesterId targetId = (DeleteUserResult.ok m, s2) →
    (∀ r ∈ s.refreshTokens, r.token = rt → r.userId = targetId) →
    tokensOfUser s2 targetId = [] ∧
    refreshHandler s2 now (some rt) =
      (RefreshResult.error 401 "Invalid refresh token", s2) := by
  intro s requesterId targetId m s2 rt now h hown
  by_cases hid : requesterId = targetId
  · simp [deleteUserHandler, hid] at h
  · cases hdel : s.users.any (fun u => u.id = targetId) with
    | false =>
        simp only [deleteUserHandler, hid, deleteUser,
          deleteRefreshTokensByUser, hdel, if_neg, ite_false, Bool.false_eq_true,
          reduceIte] at h
        simp at h
    | true =>
        simp only [deleteUserHandler, hid, deleteUser,
          deleteRefreshTokensByUser, hdel, ite_false, ite_true,
          Prod.mk.injEq, DeleteUserResult.ok.injEq, reduceIte] at h
        obtain ⟨-, hs2⟩ := h
        have hrtks : s2.refreshTokens =
            s.refreshTokens.filter (fun t => t.userId ≠ targetId) := by
          rw [← hs2]
        constructor
        · unfold tokensOfUser
          rw [hrtks, List.filter_eq_nil_iff]
          intro a ha
          have h1 := List.of_mem_filter ha
          simp at h1 ⊢
          exact h1
        · have hfind : getRefreshToken s2 rt = none := by
            unfold getRefreshToken
            rw [hrtks, List.find?_eq_none]
            intro a ha
            have h1 := List.of_mem_filter ha
            have h2 : a ∈ s.refreshTokens := List.mem_of_mem_filter ha
            simp at h1 ⊢
            intro htk
            exact h1 (hown a h2 htk)
          simp [refreshHandler, hfind]

/-- Witness for C8 on the sample token store. -/
theorem C8_delete_user_cascade_witness :
    tokensOfUser (deleteUserHandler tokenStore "u0" "u1").2 "u1" = [] ∧
    refreshHandler (deleteUserHandler tokenStore "u0" "u1").2 10 (some aliceToken) =
      (RefreshResult.error 401 "Invalid refresh token",
        (deleteUserHandler tokenStore "u0" "u1").2) :=
  C8_delete_user_cascade tokenStore "u0" "u1" "User deleted successfully"
    (deleteUserHandler tokenStore "u0" "u1").2 aliceToken 10
    (by decide) (by decide)

/-- Source `countP` over a replicated list. -/
theorem countP_replicate_outcome (p : LimiterOutcome → Bool) (n : Nat)
    (o : LimiterOutcome) :
    List.countP p (List.replicate n o) = if p o then n else 0 := by
  induction n with
  | zero => simp
  | succ k ih =>
      rw [List.replicate_succ, List.countP_cons]
      cases hp : p o <;> simp [ih, hp]

/-- Running the fixed-window limiter from a window opened at `t0` with
`c` requests already counted, over requests that all fall inside the
window: the first `max - c` are accepted, the rest rejected with the
fixed message. -/
theorem limiterRun_inside_window (t0 : Nat) (ts : List Nat) (c : Nat)
    (hc : c ≤ authLimiterMax)
    (hts : ∀ t ∈ ts, t < t0 + authLimiterWindowMs) :
    limiterRun (some { windowStart := t0, count := c }) ts =
      List.replicate (min (authLimiterMax - c) ts.length) LimiterOutcome.accepted ++
      List.replicate (ts.length - (authLimiterMax - c))
        (LimiterOutcome.rejected authLimiterMessage) := by
  induction ts generalizing c with
  | nil => simp [limiterRun]
  | cons t ts ih =>
    have ht : t < t0 + authLimiterWindowMs := hts t (List.mem_cons_self t ts)
    have hreset : ¬ t0 + authLimiterWindowMs ≤ t := by omega
    by_cases hfull : c < authLimiterMax
    · have step : limiterRun (some { windowStart := t0, count := c }) (t :: ts) =
          LimiterOutcome.accepted ::
            limiterRun (some { windowStart := t0, count := c + 1 }) ts := by
        simp [limiterRun, limiterStep, hreset, hfull]
      rw [step, ih (c + 1) (by omega) (fun x hx => hts x (List.mem_cons_of_mem t hx))]
      have e1 : min (authLimiterMax - c) (ts.length + 1) =
          min (authLimiterMax - (c + 1)) ts.length + 1 := by
        unfold authLimiterMax at hfull ⊢
        omega
      have e2 : (ts.length + 1) - (authLimiterMax - c) =
          ts.length - (authLimiterMax - (c + 1)) := by
        unfold authLimiterMax at hfull ⊢
        omega
      rw [List.length_cons, e1, e2, List.replicate_succ, List.cons_append]
    · have hc20 : c = authLimiterMax := by omega
      have step : limiterRun (some { windowStart := t0, count := c }) (t :: ts) =
          LimiterOutcome.rejected authLimiterMessage ::
            limiterRun (some { windowStart := t0, count := c }) ts := by
        simp [limiterRun, limiterStep, hreset, hfull]
      rw [step, ih c hc (fun x hx => hts x (List.mem_cons_of_mem t hx))]
      subst hc20
      simp [List.replicate_succ]

/-- C9 counterexample. Logout is not governed by the shared rate
limiter: server/routes.ts mounts `/api/auth/logout` with `authenticate`
only, so it is absent from the routes carrying `authLimiter`, refuting
the claim that every mutating auth endpoint — logout included — sits
behind the limiter. -/
theorem C9_counterexample : "/api/auth/logout" ∉ authLimitedRoutes := by
  decide

/-- C9 (amended). The mutating auth endpoints register, login and
refresh sit behind the shared `authLimiter` — logout does not: it is
mounted with `authenticate` only.  Within one limiter window a client
gets at most 20 requests accepted, and from the 21st request of a
window on every request is rejected with the fixed "too many requests"
message instead of being processed.  (Limiter internals modelled from
the spec — `express-rate-limit` is a dependency — with the window and
cap taken from the `authLimiter` configuration in the source.) -/
theorem C9_auth_rate_limit :
    ("/api/auth/register" ∈ authLimitedRoutes ∧
     "/api/auth/login" ∈ authLimitedRoutes ∧
     "/api/auth/refresh" ∈ authLimitedRoutes ∧
     "/api/auth/logout" ∉ authLimitedRoutes) ∧
    (∀ t0 ts, (∀ t ∈ ts, t < t0 + authLimiterWindowMs) →
      limiterRun none (t0 :: ts) =
        List.replicate (min authLimiterMax (ts.length + 1)) LimiterOutcome.accepted ++
        List.replicate ((ts.length + 1) - authLimiterMax)
          (LimiterOutcome.rejected authLimiterMessage)) ∧
    (∀ t0 ts, (∀ t ∈ ts, t < t0 + authLimiterWindowMs) →
      List.countP (fun o => o = LimiterOutcome.accepted) (limiterRun none (t0 :: ts)) ≤
        authLimiterMax) := by
  have hrun : ∀ t0 ts, (∀ t ∈ ts, t < t0 + authLimiterWindowMs) →
      limiterRun none (t0 :: ts) =
        List.replicate (min authLimiterMax (ts.length + 1)) LimiterOutcome.accepted ++
        List.replicate ((ts.length + 1) - authLimiterMax)
          (LimiterOutcome.rejected authLimiterMessage) := by
    intro t0 ts hts
    have step : limiterRun none (t0 :: ts) =
        LimiterOutcome.accepted ::
          limiterRun (some { windowStart := t0, count := 1 }) ts := by
      simp [limiterRun, limiterStep]
    rw [step, limiterRun_inside_window t0 ts 1 (by decide) hts]
    have e1 : min authLimiterMax (ts.length + 1) =
        min (authLimiterMax - 1) ts.length + 1 := by
      unfold authLimiterMax
      omega
    have e2 : (ts.length + 1) - authLimiterMax = ts.length - (authLimiterMax - 1) := by
      unfold authLimiterMax
      omega
    rw [e1, e2, List.replicate_succ, List.cons_append]
  refine ⟨⟨by decide, by decide, by decide, by decide⟩, hrun, ?_⟩
  intro t0 ts hts
  rw [hrun t0 ts hts, List.countP_append, countP_replicate_outcome,
    countP_replicate_outcome]
  simp

/-- Witness for C9: 25 requests inside one window — the first 20
accepted, the last 5 rejected with the fixed message. -/
theorem C9_auth_rate_limit_witness :
    limiterRun none (0 :: List.replicate 24 1) =
      List.replicate (min authLimiterMax ((List.replicate 24 1).length + 1))
        LimiterOutcome.accepted ++
      List.replicate (((List.replicate 24 1).length + 1) - authLimiterMax)
        (LimiterOutcome.rejected authLimiterMessage) ∧
    List.countP (fun o => o = LimiterOutcome.accepted)
      (limiterRun none (0 :: List.replicate 24 1)) ≤ authLimiterMax :=
  ⟨C9_auth_rate_limit.2.1 0 (List.replicate 24 1) (by decide),
   C9_auth_rate_limit.2.2 0 (List.replicate 24 1) (by decide)⟩

end TaskFlow
